import Mathlib

/-!
Shallow embedding of `src/main.py` (the Streamlit silica-concentration
predictor of Slayerjmc/App-Flotacion), together with theorems settling the
behavioural claims of the specification against it.

Numbers are modelled as exact rationals extended with the IEEE non-finite
specials (no rounding of binary floats is relevant to any claim: all
constants involved are exactly representable decimals and no float
arithmetic occurs in the script, only pass-through of slider values).
Python exceptions are modelled with `Except`; a value of type
`Except PyErr α` that is `.error e` is a raised, uncaught exception `e`.
-/

namespace Flotacion

/-- A Python float value as the script handles it: a finite number
(modelled exactly as a rational) or one of the non-finite specials. -/
inductive PyFloat where
  | finite (q : ℚ)
  | nan
  | inf
  | negInf
deriving DecidableEq

/-- Whether a value is finite (not NaN and not an infinity). -/
def PyFloat.isFinite : PyFloat → Bool
  | .finite _ => true
  | _ => false

/-- The Python exceptions the script can raise or catch:
`NameError` (undefined variable), `FileNotFoundError` (from `joblib.load`),
`IndexError` (from indexing position 0 of an empty prediction result), and
any other raised exception carried with its message (e.g. a deserialization
error from a corrupt model file, or an internal error of `model.predict`). -/
inductive PyErr where
  | nameError (name : String)
  | fileNotFoundError
  | indexError
  | raised (msg : String)
deriving DecidableEq

/-- The message text `str(e)` used when an exception is interpolated into
an f-string, as in line 99 of `main.py`. -/
def pyErrMsg : PyErr → String
  | .nameError n => "name '" ++ n ++ "' is not defined"
  | .fileNotFoundError => "FileNotFoundError"
  | .indexError => "index 0 is out of bounds for axis 0 with size 0"
  | .raised m => m

/-- The single-row pandas DataFrame built at lines 85-89 of `main.py`:
three named columns, one row each. Column names in the source are
'Amina Flow', 'Flotation Column 01 Air Flow', '% Iron Concentrate'. -/
structure DfInput where
  aminaFlow : PyFloat
  airFlow : PyFloat
  ironConcentrate : PyFloat
deriving DecidableEq

/-- Whether every component of the input row is finite. -/
def DfInput.allFinite (df : DfInput) : Bool :=
  df.aminaFlow.isFinite && df.airFlow.isFinite && df.ironConcentrate.isFinite

/-- The opaque deserialized predictor: one operation `predict` taking the
single-row DataFrame and returning a sequence of floats, or raising. -/
structure Model where
  predict : DfInput → Except PyErr (List PyFloat)

/-- What the user sees in the page for one rendered element:
`st.success`, `st.error` or `st.warning` with its text. (`st.subheader`
and `st.info`, pure static copy around the success box at lines 94 and
97, are presentation-only and not modelled.) -/
inductive Display where
  | success (text : String)
  | errorMsg (text : String)
  | warning (text : String)
deriving DecidableEq

/-- The variables bound by the three sliders of the sidebar, with the
exact capitalisation the source uses: `flowrate1` (line 38, Amina flow),
`Flowrate2` (line 48, air flow), `concentration` (line 58, iron
concentrate). Sliders only produce finite in-range values, hence the
fields are rationals. -/
structure SliderEnv where
  flowrate1 : ℚ
  Flowrate2 : ℚ
  concentration : ℚ
deriving DecidableEq

/-- The documented slider bounds (lines 40-41, 50-51, 60-61 of `main.py`),
inclusive on both ends. -/
def SliderEnv.inRange (env : SliderEnv) : Prop :=
  241.7 ≤ env.flowrate1 ∧ env.flowrate1 ≤ 739.3 ∧
  175.85 ≤ env.Flowrate2 ∧ env.Flowrate2 ≤ 372.44 ∧
  62.51 ≤ env.concentration ∧ env.concentration ≤ 68.01

instance (env : SliderEnv) : Decidable env.inRange := by
  unfold SliderEnv.inRange; infer_instance

/-- Case-sensitive Python name lookup over the numeric variables bound by
the script at the time the button block runs. Exactly `flowrate1`,
`Flowrate2` and `concentration` are bound (no assignment to `Flowrate1`
or `Concentration` exists anywhere in `main.py`); looking up any other
name raises `NameError`. -/
def SliderEnv.lookup (env : SliderEnv) : String → Except PyErr ℚ
  | "flowrate1" => .ok env.flowrate1
  | "Flowrate2" => .ok env.Flowrate2
  | "concentration" => .ok env.concentration
  | n => .error (.nameError n)

/-- Lines 85-89 of `main.py`: construction of `df_input`. The dict literal
reads, in evaluation order, the names `Flowrate1`, `Flowrate2`,
`Concentration` — with this exact capitalisation. This statement sits
before (outside) the `try` block. -/
def buildDfInput (env : SliderEnv) : Except PyErr DfInput := do
  let a ← env.lookup "Flowrate1"
  let b ← env.lookup "Flowrate2"
  let c ← env.lookup "Concentration"
  return { aminaFlow := .finite a, airFlow := .finite b, ironConcentrate := .finite c }

/-- Fixed-point formatting of a rational to two decimal places, the
behaviour of the format spec `.2f` on the values the app produces.
(Exact ties round half away from zero here; in the source the binary
representation of the float decides exact ties, a distinction immaterial
to every claim, all of whose constants are tie-free.) -/
def formatTwoDec (q : ℚ) : String :=
  let cents : ℤ := round (|q| * 100)
  let whole := cents / 100
  let frac := (cents % 100).toNat
  (if q < 0 ∧ cents ≠ 0 then "-" else "") ++ toString whole ++ "." ++
    (if frac < 10 then "0" else "") ++ toString frac

/-- Python's `.2f` formatting of a float value: non-finite specials
format as their names, finite values as fixed-point two-decimal. -/
def PyFloat.format2 : PyFloat → String
  | .finite q => formatTwoDec q
  | .nan => "nan"
  | .inf => "inf"
  | .negInf => "-inf"

/-- The `st.error` text of line 99 of `main.py` for a caught exception. -/
def predictionErrorText (e : PyErr) : String :=
  "Ocurrió un error durante la predicción: " ++ pyErrMsg e

/-- The `st.success` text of line 96 of `main.py` for a predicted value. -/
def successText (v : PyFloat) : String :=
  "**Concentración Predicha:** `" ++ v.format2 ++ "%`"

/-- The body of the `try` at lines 92-97 of `main.py`: call
`model.predict(df_input)`, index position 0 of the result, and render the
two-decimal formatted value in a success box. Each step may raise. -/
def tryBody (model : Model) (df : DfInput) : Except PyErr Display :=
  match model.predict df with
  | .error e => .error e
  | .ok cv =>
    match cv.head? with
    | none => .error .indexError
    | some v => .ok (.success (successText v))

/-- Lines 92-99 of `main.py`: the `try` / `except Exception` region around
the predict call. Every exception raised inside the body — by
`model.predict` itself, by the `[0]` indexing, or by formatting — is
caught and shown via `st.error`; nothing propagates out of this region,
which is why its result type is a plain `Display`. -/
def guardedPredict (model : Model) (df : DfInput) : Display :=
  match tryBody model df with
  | .ok d => d
  | .error e => .errorMsg (predictionErrorText e)

/-- The display `guardedPredict` produces when the predict call returns
normally with output sequence `out`: the formatted first element on
success, the caught-`IndexError` message when `out` is empty. -/
def displayOfOutput (out : List PyFloat) : Display :=
  match out.head? with
  | some v => .success (successText v)
  | none => .errorMsg (predictionErrorText .indexError)

/-- Lines 82-99 of `main.py`: the whole button-press block. The
`df_input` construction (lines 85-89) runs first and sits OUTSIDE the
`try`, so an exception raised there propagates unhandled (`.error`);
only once the row is built does control enter the guarded region. -/
def pressPredict (env : SliderEnv) (model : Model) : Except PyErr Display :=
  match buildDfInput env with
  | .error e => .error e
  | .ok df => .ok (guardedPredict model df)

/-- What the filesystem and deserializer do for a given path: the file is
absent, the file is present but unreadable as a model (deserialization
raises the exception carried as `msg`), or a model is obtained. -/
inductive LoadOutcome where
  | missing
  | corrupt (msg : String)
  | ok (m : Model)

/-- `joblib.load` as used at line 21 of `main.py`: raises
`FileNotFoundError` when the file is absent, raises the deserializer's
own exception when the file is corrupt, and returns the model otherwise. -/
def joblibLoad : LoadOutcome → Except PyErr Model
  | .missing => .error .fileNotFoundError
  | .corrupt msg => .error (.raised msg)
  | .ok m => .ok m

/-- The `st.error` text of line 24 of `main.py` for a missing model file. -/
def missingModelText (path : String) : String :=
  "Error: No se encontró el archivo del modelo en " ++ path ++
    ". Asegúrate de que el archivo del modelo esté en el directorio correcto."

/-- Lines 18-25 of `main.py`: `load_model`. Tries `joblib.load`; catches
ONLY `FileNotFoundError` (shows an error box and returns `None`); any
other exception — in particular a deserialization failure on a corrupt
file — propagates uncaught. Returns the model option paired with the
displays emitted. The `@st.cache_resource` wrapper of line 17 is
modelled separately by `cachedCall`. -/
def load_model (fs : String → LoadOutcome) (path : String) :
    Except PyErr (Option Model × List Display) :=
  match joblibLoad (fs path) with
  | .ok m => .ok (some m, [])
  | .error .fileNotFoundError => .ok (none, [.errorMsg (missingModelText path)])
  | .error e => .error e

/-- The `st.warning` text of line 101 of `main.py`. -/
def noModelWarningText : String :=
  "El modelo no pudo ser cargado. Por favor, verifica la ruta del archivo del modelo."

/-- The outcome of one full page run: the dynamic boxes shown, and
whether the predict button was rendered at all (line 80 guards the whole
prediction UI on `model is not None`). -/
structure PageOutcome where
  displays : List Display
  predictButtonShown : Bool
deriving DecidableEq

/-- The script's dynamic flow: the `load_model('modelo.joblib')` call of
line 28, then lines 80-101. When the model failed to load (is `None`)
the predict button is not rendered and a static warning is shown; when it
loaded, a press of the button runs `pressPredict`. An `.error` result is
an uncaught exception crashing the script run. (Caching across reruns of
the script is modelled separately by `cachedCall`; a single run on a
fresh process performs the one underlying load modelled here.) -/
def runScript (fs : String → LoadOutcome) (pressed : Bool) (env : SliderEnv) :
    Except PyErr PageOutcome :=
  match load_model fs "modelo.joblib" with
  | .error e => .error e
  | .ok (none, msgs) => .ok ⟨msgs ++ [.warning noModelWarningText], false⟩
  | .ok (some model, msgs) =>
    if pressed then
      match pressPredict env model with
      | .error e => .error e
      | .ok d => .ok ⟨msgs ++ [d], true⟩
    else .ok ⟨msgs, true⟩

/-- Modelled behaviour of the `@st.cache_resource` decorator of line 17:
a per-process cache keyed by the call argument. `entries` maps each path
already called to the value the wrapped body returned for it (including
`None`); `loads` counts how many times the wrapped body — and hence the
underlying `joblib` deserialization — actually ran. -/
structure Cache where
  entries : List (String × Option Model)
  loads : Nat

/-- One call to the cached `load_model` through `st.cache_resource`: a
cache hit returns the stored value with no body run; a miss runs the
body (`load_model`), stores its return value, and bumps the load count.
An exception escaping the body propagates to the caller and caches
nothing. -/
def cachedCall (fs : String → LoadOutcome) (path : String) (c : Cache) :
    Except PyErr (Option Model × Cache) :=
  match c.entries.lookup path with
  | some v => .ok (v, c)
  | none =>
    match load_model fs path with
    | .ok (v, _msgs) => .ok (v, ⟨(path, v) :: c.entries, c.loads + 1⟩)
    | .error e => .error e

/-- `n` successive calls to the cached loader with the same path within
one process lifetime, collecting the value each caller received and
threading the cache. -/
def callTrace (fs : String → LoadOutcome) (path : String) :
    Nat → Cache → Except PyErr (List (Option Model) × Cache)
  | 0, c => .ok ([], c)
  | n + 1, c =>
    match cachedCall fs path c with
    | .error e => .error e
    | .ok (v, c') =>
      match callTrace fs path n c' with
      | .error e => .error e
      | .ok (vs, c'') => .ok (v :: vs, c'')

/-- One full user interaction (a button press) against an already-loaded
model, threading the process state. The prediction block at lines 82-99
assigns no global and mutates no cache or session state — its one
binding `concentration_value` is local to the interaction — so the block
embeds as a pure function of the model and the sliders, and the state
passes through unchanged. -/
def interact (c : Cache) (model : Model) (env : SliderEnv) :
    Except PyErr Display × Cache :=
  (pressPredict env model, c)

/-- A stub model whose predict always returns the one fixed value `v`. -/
def stubModel (v : PyFloat) : Model := ⟨fun _ => .ok [v]⟩

/-- A stub model whose predict always raises `e`. -/
def raisingModel (e : PyErr) : Model := ⟨fun _ => .error e⟩

/-- A stub model whose predict returns the empty output sequence. -/
def emptyModel : Model := ⟨fun _ => .ok []⟩

/-- A probe model echoing its first input column, used to observe that
the input record actually reached the predict call. -/
def echoModel : Model := ⟨fun df => .ok [df.aminaFlow]⟩

/-- The spec's concrete scenario: slider values AminaFlow 488.43,
AirFlow 200.13, IronConcentrate 65.04 (the script's defaults). -/
def scenarioEnv : SliderEnv := ⟨488.43, 200.13, 65.04⟩

/-- All three sliders at their documented lower bounds. -/
def boundaryEnvLow : SliderEnv := ⟨241.7, 175.85, 62.51⟩

/-- All three sliders at their documented upper bounds. -/
def boundaryEnvHigh : SliderEnv := ⟨739.3, 372.44, 68.01⟩

/-- An input row whose first component is NaN (non-finite). -/
def dfNonFinite : DfInput := ⟨.nan, .finite 200.13, .finite 65.04⟩

/-- A filesystem on which every path is absent. -/
def missingFs : String → LoadOutcome := fun _ => .missing

/-- A filesystem on which every path holds a corrupt model file whose
deserialization raises an unpickling error. -/
def corruptFs : String → LoadOutcome := fun _ => .corrupt "UnpicklingError: invalid load key"

/-! ## Theorems -/

/-- Once the cache holds an entry for `path`, every further call is a hit:
no body run, no cache change, every caller receives the stored value. -/
theorem callTrace_hit (fs : String → LoadOutcome) (path : String) (v : Option Model)
    (c : Cache) (h : c.entries.lookup path = some v) :
    ∀ n, callTrace fs path n c = .ok (List.replicate n v, c) := by
  intro n
  induction n with
  | zero => simp [callTrace]
  | succ k ih => simp [callTrace, cachedCall, h, ih, List.replicate]

/-- Claim C1 (code_bug evaluation): at the spec's concrete scenario —
sliders at AminaFlow 488.43, AirFlow 200.13, IronConcentrate 65.04, all
in range, against a stub model returning 1.67 — the button press raises
an unhandled NameError for `Flowrate1` instead of displaying "1.67%":
the DataFrame construction reads a name no slider bound. -/
theorem scenario_press_raises_nameError :
    scenarioEnv.inRange ∧
    pressPredict scenarioEnv (stubModel (.finite 1.67)) = .error (.nameError "Flowrate1") :=
  ⟨by norm_num [scenarioEnv, SliderEnv.inRange], rfl⟩

/-- Claim C2: for every combination of slider values and every model,
pressing the predict button raises an unhandled NameError on the name
`Flowrate1` — the `df_input` construction reads `Flowrate1` (and
`Concentration`) while the sliders bound `flowrate1` and `concentration`
— and it does so before the model is ever invoked (the result does not
depend on the model) and outside the try/except (the error is an
uncaught `.error`, not a caught display). -/
theorem pressPredict_always_nameError (env : SliderEnv) (model : Model) :
    pressPredict env model = .error (.nameError "Flowrate1") := rfl

/-- Claim C3 counterexample: on a corrupt model file, `load_model` does
not signal a handled ModelCorrupt condition — the deserialization
exception propagates uncaught out of `load_model` and crashes the whole
script run, since line 23 catches only FileNotFoundError. -/
theorem load_model_corrupt_crashes :
    load_model corruptFs "modelo.joblib" = .error (.raised "UnpicklingError: invalid load key") ∧
    runScript corruptFs false scenarioEnv = .error (.raised "UnpicklingError: invalid load key") :=
  ⟨rfl, rfl⟩

/-- Claim C3 amended: when the model file is absent the loader shows an
error box and returns None (non-fatal, handled); but when
deserialization fails for any other reason the exception propagates
uncaught — there is no ModelCorrupt handling. -/
theorem load_model_missing_handled_corrupt_propagates (fs : String → LoadOutcome)
    (path : String) (msg : String) :
    (fs path = .missing →
      load_model fs path = .ok (none, [.errorMsg (missingModelText path)])) ∧
    (fs path = .corrupt msg → load_model fs path = .error (.raised msg)) := by
  constructor <;> intro h <;> simp [load_model, joblibLoad, h]

/-- Witness for the amended C3 statement at concrete filesystems. -/
theorem load_model_cases_witness :
    load_model missingFs "modelo.joblib" = .ok (none, [.errorMsg (missingModelText "modelo.joblib")]) ∧
    load_model corruptFs "otro.joblib" = .error (.raised "UnpicklingError: invalid load key") :=
  ⟨(load_model_missing_handled_corrupt_propagates missingFs "modelo.joblib" "").1 rfl,
   (load_model_missing_handled_corrupt_propagates corruptFs "otro.joblib"
      "UnpicklingError: invalid load key").2 rfl⟩

/-- Claim C4: within the guarded region of lines 92-99, any exception
raised by `model.predict` is caught by the `except Exception` clause and
surfaced to the user as the per-interaction error box carrying the
exception's message; it never propagates (the region's result type is a
plain `Display`, not an `Except`), so the script run survives. -/
theorem guardedPredict_catches_predict_error (model : Model) (df : DfInput) (e : PyErr)
    (h : model.predict df = .error e) :
    guardedPredict model df = .errorMsg (predictionErrorText e) := by
  unfold guardedPredict tryBody
  rw [h]

/-- Witness for C4: a stub model raising an internal error. -/
theorem guardedPredict_catches_predict_error_witness :
    (raisingModel (.raised "internal numeric error")).predict dfNonFinite =
      .error (.raised "internal numeric error") ∧
    guardedPredict (raisingModel (.raised "internal numeric error")) dfNonFinite =
      .errorMsg (predictionErrorText (.raised "internal numeric error")) :=
  ⟨rfl, guardedPredict_catches_predict_error _ _ _ rfl⟩

/-- Claim C5: a missing model file is handled gracefully on every path:
`load_model` returns None with the error box (no exception), and the
script run completes normally showing that box plus the static warning,
with the predict button not rendered — never a crash. -/
theorem missing_model_graceful (fs : String → LoadOutcome) (path : String)
    (pressed : Bool) (env : SliderEnv) (hp : fs path = .missing)
    (hm : fs "modelo.joblib" = .missing) :
    load_model fs path = .ok (none, [.errorMsg (missingModelText path)]) ∧
    runScript fs pressed env =
      .ok ⟨[.errorMsg (missingModelText "modelo.joblib"), .warning noModelWarningText],
        false⟩ := by
  refine ⟨?_, ?_⟩
  · simp [load_model, joblibLoad, hp]
  · simp [runScript, load_model, joblibLoad, hm]

/-- Witness for C5 on the all-missing filesystem. -/
theorem missing_model_graceful_witness :
    load_model missingFs "otra/ruta.joblib" =
      .ok (none, [.errorMsg (missingModelText "otra/ruta.joblib")]) ∧
    runScript missingFs true scenarioEnv =
      .ok ⟨[.errorMsg (missingModelText "modelo.joblib"), .warning noModelWarningText],
        false⟩ :=
  missing_model_graceful missingFs "otra/ruta.joblib" true scenarioEnv rfl rfl

/-- Claim C6: under the modelled `st.cache_resource` semantics, `n ≥ 1`
calls to the cached loader with the same (valid) path perform the
underlying deserialization exactly once — the final cache records one
body run — and every one of the `n` callers receives the same cached
Model instance. -/
theorem cachedLoad_memoized (fs : String → LoadOutcome) (path : String) (m : Model)
    (h : fs path = .ok m) (n : Nat) (hn : 0 < n) :
    callTrace fs path n ⟨[], 0⟩ =
      .ok (List.replicate n (some m), ⟨[(path, some m)], 1⟩) := by
  obtain ⟨k, rfl⟩ : ∃ k, n = k + 1 := ⟨n - 1, (Nat.succ_pred_eq_of_pos hn).symm⟩
  have hfirst : cachedCall fs path ⟨[], 0⟩ = .ok (some m, ⟨[(path, some m)], 1⟩) := by
    simp [cachedCall, load_model, joblibLoad, h]
  have hhit : (Cache.mk [(path, some m)] 1).entries.lookup path = some (some m) := by
    simp [List.lookup]
  simp [callTrace, hfirst, callTrace_hit fs path (some m) _ hhit k, List.replicate]

/-- Witness for C6: three calls on a filesystem holding a stub model. -/
theorem cachedLoad_memoized_witness :
    callTrace (fun _ => .ok (stubModel (.finite 1.67))) "modelo.joblib" 3 ⟨[], 0⟩ =
      .ok (List.replicate 3 (some (stubModel (.finite 1.67))),
        ⟨[("modelo.joblib", some (stubModel (.finite 1.67)))], 1⟩) :=
  cachedLoad_memoized _ "modelo.joblib" _ rfl 3 (by decide)

/-- Claim C7 (code_bug evaluation): with every slider at a documented
boundary value (both the lower and the upper corner, all in range), the
button press does not complete without error — it raises the same
unhandled NameError as every other input, so boundary handling never
gets exercised at all. -/
theorem boundary_press_raises_nameError :
    boundaryEnvLow.inRange ∧ boundaryEnvHigh.inRange ∧
    pressPredict boundaryEnvLow (stubModel (.finite 1.67)) = .error (.nameError "Flowrate1") ∧
    pressPredict boundaryEnvHigh (stubModel (.finite 1.67)) = .error (.nameError "Flowrate1") :=
  ⟨by norm_num [boundaryEnvLow, SliderEnv.inRange],
   by norm_num [boundaryEnvHigh, SliderEnv.inRange], rfl, rfl⟩

/-- Claim C8 counterexample: a record whose first component is NaN is
not rejected — the guarded handler passes it to `model.predict`
unchanged (the echo model's output, displayed as "nan", is the very
non-finite value that went in) and returns a success box, not an error. -/
theorem nonfinite_record_reaches_predict :
    dfNonFinite.allFinite = false ∧
    guardedPredict echoModel dfNonFinite = .success (successText .nan) :=
  ⟨rfl, rfl⟩

/-- Claim C8 amended: the handler performs no finiteness validation:
even for a record with a non-finite component, the outcome is exactly
what the model's own answer on that record dictates — the record is
passed to `model.predict`, never rejected beforehand. -/
theorem guardedPredict_no_finiteness_check (model : Model) (df : DfInput)
    (_hnf : df.allFinite = false) (out : List PyFloat)
    (h : model.predict df = .ok out) :
    guardedPredict model df = displayOfOutput out := by
  unfold guardedPredict tryBody displayOfOutput
  rw [h]
  cases out <;> rfl

/-- Witness for the amended C8 statement: the NaN record on the echo model. -/
theorem guardedPredict_no_finiteness_check_witness :
    dfNonFinite.allFinite = false ∧
    guardedPredict echoModel dfNonFinite = displayOfOutput [.nan] :=
  ⟨rfl, guardedPredict_no_finiteness_check echoModel dfNonFinite rfl [.nan] rfl⟩

/-- Claim C9: the prediction interaction is deterministic and
side-effect free: running it again with the same model and the same
slider values — in the very state the first run left — yields an equal
result, and the interaction leaves the process state exactly as it
found it. -/
theorem interact_deterministic_stateless (c : Cache) (model : Model) (env : SliderEnv) :
    (interact c model env).1 = (interact (interact c model env).2 model env).1 ∧
    (interact c model env).2 = c :=
  ⟨rfl, rfl⟩

/-- Claim C10: the `[0]` extraction and the formatting both sit inside
the try of lines 92-97: when `model.predict` returns an empty sequence,
the IndexError raised by the extraction is caught and shown as the
per-interaction error box — it never propagates as an unhandled crash. -/
theorem guardedPredict_catches_empty_output (model : Model) (df : DfInput)
    (h : model.predict df = .ok []) :
    guardedPredict model df = .errorMsg (predictionErrorText .indexError) := by
  unfold guardedPredict tryBody
  rw [h]
  rfl

/-- Witness for C10: the empty-output stub model. -/
theorem guardedPredict_catches_empty_output_witness :
    emptyModel.predict dfNonFinite = .ok [] ∧
    guardedPredict emptyModel dfNonFinite = .errorMsg (predictionErrorText .indexError) :=
  ⟨rfl, guardedPredict_catches_empty_output _ _ rfl⟩

end Flotacion
